import Mathlib

/-!
Shallow embedding of the CanSat ground-station backend
(`Ground-Station/Backend`): the telemetry schema and validator
(`schema.py`, `receiver_udp.py`), the packet-loss tracker
(`receiver_udp.py:main`, `gs_gui2.py:TelemetryModel`), the command
encoder (`cmd_sender_udp.py:format_cmd`), the bounded display model
(`gs_gui2.py:TelemetryModel.append_csv_line`) and the CSV replayer
(`gs_gui2.py:CsvReplayer._loop`).  Python string primitives used by the
code (`str.strip`, `str.split(",")`, `int(...)`, `str.isdigit`,
`str.upper`, `",".join`) are modelled explicitly.
-/

namespace CanSat

/-- Characters stripped by Python `str.strip()` (ASCII whitespace set). -/
def isPyWhite (c : Char) : Bool :=
  c = ' ' || c = '\t' || c = '\n' || c = '\x0d' || c = '\x0b' || c = '\x0c'

/-- Python `s.strip()`: remove leading and trailing whitespace. -/
def pyStrip (s : String) : String :=
  (((s.toList.dropWhile isPyWhite).reverse.dropWhile isPyWhite).reverse).asString

/-- Helper for `pySplitComma`: accumulates the current field (reversed). -/
def splitCommaAux : List Char → List Char → List String
  | [], acc => [acc.reverse.asString]
  | ',' :: rest, acc => acc.reverse.asString :: splitCommaAux rest []
  | c :: rest, acc => splitCommaAux rest (c :: acc)

/-- Python `s.split(",")`: fields between commas, empty fields kept;
the empty string yields `[""]`. -/
def pySplitComma (s : String) : List String :=
  splitCommaAux s.toList []

/-- Python `",".join(row)`. -/
def joinComma : List String → String
  | [] => ""
  | [x] => x
  | x :: y :: rest => x ++ "," ++ joinComma (y :: rest)

/-- Python `s.upper()` on ASCII text: uppercase each character. -/
def pyUpper (s : String) : String :=
  (s.toList.map Char.toUpper).asString

/-- Python `s.isdigit()` for ASCII text: nonempty and all characters
are decimal digits. -/
def pyIsdigit (s : String) : Bool :=
  !s.toList.isEmpty && s.toList.all Char.isDigit

/-- Tail of a Python integer-literal digit run: after a digit, either
more digits or single underscores each followed by a digit. -/
def usTail : List Char → Bool
  | [] => true
  | '_' :: [] => false
  | '_' :: c :: cs => c.isDigit && usTail cs
  | c :: cs => c.isDigit && usTail cs

/-- A Python digit run: nonempty, starts with a digit, underscores only
singly and between digits. -/
def usNum : List Char → Bool
  | [] => false
  | c :: cs => c.isDigit && usTail cs

/-- Numeric value of a digit run, ignoring grouping underscores. -/
def digitsVal (cs : List Char) : Nat :=
  (cs.filter (fun c => c ≠ '_')).foldl (fun a c => a * 10 + (c.toNat - '0'.toNat)) 0

/-- Python `int(s)` on ASCII text: strip surrounding whitespace, allow
an optional sign, then a digit run with optional underscore grouping;
`none` models the `ValueError`. -/
def pyInt (s : String) : Option Int :=
  match (pyStrip s).toList with
  | '+' :: rest => if usNum rest then some (Int.ofNat (digitsVal rest)) else none
  | '-' :: rest => if usNum rest then some (-(Int.ofNat (digitsVal rest))) else none
  | rest => if usNum rest then some (Int.ofNat (digitsVal rest)) else none

/-! ## Schema (`schema.py`) and configuration (`config.py`) -/

/-- `config.TEAM_ID`. -/
def TEAM_ID : String := "1000"

/-- `schema.REQUIRED_HEADERS`: the ordered CSV header list. -/
def REQUIRED_HEADERS : List String :=
  ["TEAM_ID", "MISSION_TIME", "PACKET_COUNT", "MODE", "STATE",
   "ALTITUDE", "TEMPERATURE", "PRESSURE", "VOLTAGE",
   "GYRO_R", "GYRO_P", "GYRO_Y",
   "ACCEL_R", "ACCEL_P", "ACCEL_Y",
   "MAG_R", "MAG_P", "MAG_Y",
   "AUTO_GYRO_ROTATION_RATE",
   "GPS_TIME", "GPS_ALTITUDE", "GPS_LATITUDE", "GPS_LONGITUDE", "GPS_SATS",
   "CMD_ECHO"]

/-- `schema.ALLOWED_MODES`. -/
def ALLOWED_MODES : List String := ["F", "S"]

/-- `schema.ALLOWED_STATES`. -/
def ALLOWED_STATES : List String :=
  ["LAUNCH_PAD", "ASCENT", "APOGEE", "DESCENT",
   "PROBE_RELEASE", "PAYLOAD_RELEASE", "LANDED"]

/-- `schema.INDEX`: column name to position in `REQUIRED_HEADERS`. -/
def INDEX (name : String) : Nat := REQUIRED_HEADERS.indexOf name

/-- `schema.has_required_field_count`. -/
def has_required_field_count (fields : List String) : Bool :=
  fields.length ≥ REQUIRED_HEADERS.length

/-- `schema.is_valid_mode`. -/
def is_valid_mode (m : String) : Bool := ALLOWED_MODES.contains m

/-- `schema.is_valid_state`. -/
def is_valid_state (st : String) : Bool := ALLOWED_STATES.contains st

/-! ## Validator (`receiver_udp.py:parse_and_validate`) -/

/-- The distinct `ValueError` reasons raised by
`receiver_udp.parse_and_validate`, tagged with the offending text. -/
inductive ValErr where
  | fieldCount (have_ : Nat) : ValErr
  | teamMismatch (got : String) : ValErr
  | invalidMode (got : String) : ValErr
  | invalidState (got : String) : ValErr
  | nonIntSeq (got : String) : ValErr
deriving DecidableEq, Repr

/-- The checks of `parse_and_validate` applied to the split fields:
field count, stripped TEAM_ID, stripped MODE, stripped STATE, and the
PACKET_COUNT `int(...)` conversion; on success the first
`len(REQUIRED_HEADERS)` fields verbatim plus the parsed count. -/
def validateFields (fields : List String) : Except ValErr (List String × Int) :=
  if ¬ has_required_field_count fields then
    .error (.fieldCount fields.length)
  else if pyStrip (fields.getD (INDEX "TEAM_ID") "") ≠ TEAM_ID then
    .error (.teamMismatch (pyStrip (fields.getD (INDEX "TEAM_ID") "")))
  else if ¬ is_valid_mode (pyStrip (fields.getD (INDEX "MODE") "")) then
    .error (.invalidMode (pyStrip (fields.getD (INDEX "MODE") "")))
  else if ¬ is_valid_state (pyStrip (fields.getD (INDEX "STATE") "")) then
    .error (.invalidState (pyStrip (fields.getD (INDEX "STATE") "")))
  else
    match pyInt (fields.getD (INDEX "PACKET_COUNT") "") with
    | none => .error (.nonIntSeq (fields.getD (INDEX "PACKET_COUNT") ""))
    | some tx => .ok (fields.take REQUIRED_HEADERS.length, tx)

/-- `receiver_udp.parse_and_validate`: strip the raw line, split on
commas, validate. -/
def parse_and_validate (line : String) : Except ValErr (List String × Int) :=
  validateFields (pySplitComma (pyStrip line))

/-! ## Command encoder (`cmd_sender_udp.py:format_cmd`) -/

/-- `cmd_sender_udp.format_cmd`: token list to wire string, or the
`ValueError` message the Python code raises. -/
def format_cmd (parts : List String) : Except String String :=
  match parts with
  | [] => .error "Empty input"
  | p0 :: rest =>
    let name := pyUpper p0
    if name = "CAL" then
      .ok ("CMD," ++ TEAM_ID ++ ",CAL")
    else if name = "CX" then
      match rest with
      | [a] =>
        if pyUpper a = "ON" ∨ pyUpper a = "OFF" then
          .ok ("CMD," ++ TEAM_ID ++ ",CX," ++ pyUpper a)
        else .error "Usage: CX ON|OFF"
      | _ => .error "Usage: CX ON|OFF"
    else if name = "ST" then
      match rest with
      | [a] =>
        let arg := pyUpper a
        if arg = "GPS" then .ok ("CMD," ++ TEAM_ID ++ ",ST,GPS")
        else if arg.toList.length = 8 ∧ arg.toList.getD 2 ' ' = ':' ∧
            arg.toList.getD 5 ' ' = ':' then
          .ok ("CMD," ++ TEAM_ID ++ ",ST," ++ arg)
        else .error "ST must be hh:mm:ss or GPS"
      | _ => .error "Usage: ST hh:mm:ss | ST GPS"
    else if name = "SIM" then
      match rest with
      | [a] =>
        if pyUpper a = "ENABLE" ∨ pyUpper a = "ACTIVATE" ∨ pyUpper a = "DISABLE" then
          .ok ("CMD," ++ TEAM_ID ++ ",SIM," ++ pyUpper a)
        else .error "Usage: SIM ENABLE|ACTIVATE|DISABLE"
      | _ => .error "Usage: SIM ENABLE|ACTIVATE|DISABLE"
    else if name = "SIMP" then
      match rest with
      | [a] =>
        if pyIsdigit a then .ok ("CMD," ++ TEAM_ID ++ ",SIMP," ++ a)
        else .error "Usage: SIMP <pressure_pa>"
      | _ => .error "Usage: SIMP <pressure_pa>"
    else if name = "MEC" then
      match rest with
      | [d, s2] =>
        if pyUpper s2 = "ON" ∨ pyUpper s2 = "OFF" then
          let device := pyUpper d
          if (',') ∈ device.toList then .error "DEVICE must not contain commas"
          else .ok ("CMD," ++ TEAM_ID ++ ",MEC," ++ device ++ "," ++ pyUpper s2)
        else .error "Usage: MEC <DEVICE> <ON|OFF>"
      | _ => .error "Usage: MEC <DEVICE> <ON|OFF>"
    else .error ("Unknown command " ++ name)

/-! ## Sequence-loss tracking (`receiver_udp.py:main`, lines 106-109) -/

/-- The receiver's running counters: `last_tx_count` and `lost`. -/
structure SeqState where
  last : Option Int
  lost : Int
deriving DecidableEq, Repr

/-- One accepted packet count, as in `receiver_udp.main`: add the gap
`seq - last - 1` to `lost` exactly when `last` exists and
`seq > last + 1`; always set `last` to `seq`. -/
def observe (st : SeqState) (seq : Int) : SeqState :=
  match st.last with
  | none => { last := some seq, lost := st.lost }
  | some l =>
    if seq > l + 1 then { last := some seq, lost := st.lost + (seq - l - 1) }
    else { last := some seq, lost := st.lost }

/-- A run of observations in arrival order. -/
def observeAll (st : SeqState) (seqs : List Int) : SeqState :=
  seqs.foldl observe st

/-! ## Receiver session (`receiver_udp.py:main`, accepted-line path) -/

/-- The receiver's mutable state relevant to one line: the loss
counters and the rows written to the CSV log. -/
structure RecvState where
  seq : SeqState
  log : List (List String)
deriving DecidableEq, Repr

/-- One iteration of `receiver_udp.main` on a received line: on a
`parse_and_validate` error the line is dropped and nothing changes; on
success the loss counters are updated and the row is appended to the
CSV log. -/
def recvAccept (st : RecvState) (line : String) :
    RecvState × Except ValErr (List String × Int) :=
  match parse_and_validate line with
  | .error e => (st, .error e)
  | .ok (row, tx) =>
    ({ seq := observe st.seq tx, log := st.log ++ [row] }, .ok (row, tx))

/-! ## Display model (`gs_gui2.py:TelemetryModel`) -/

/-- Python's `rows[-k:]` slice: the last `k` elements, except that
`rows[-0:]` is the whole list. -/
def pyLastSlice (k : Nat) (l : List α) : List α :=
  if k = 0 then l else l.drop (l.length - k)

/-- The row-buffer step of `TelemetryModel.append_csv_line`: append,
then trim to the last `maxlen` rows once the length exceeds `maxlen`. -/
def histAppend (maxlen : Nat) (rows : List α) (r : α) : List α :=
  let rows1 := rows ++ [r]
  if rows1.length > maxlen then pyLastSlice maxlen rows1 else rows1

/-- `TelemetryModel` state: stored rows (as their field lists),
`last_pkt`, `dropped` and the `maxlen` bound. -/
structure GuiState where
  rows : List (List String)
  last_pkt : Option Nat
  dropped : Nat
  maxlen : Nat
deriving DecidableEq, Repr

/-- The packet-loss update of `append_csv_line`: only when the
PACKET_COUNT field is all digits is it parsed and compared. -/
def guiTrack (last_pkt : Option Nat) (dropped : Nat) (pktField : String) :
    Option Nat × Nat :=
  if pyIsdigit pktField then
    let pkt := digitsVal pktField.toList
    match last_pkt with
    | some lp =>
      if pkt > lp + 1 then (some pkt, dropped + (pkt - lp - 1))
      else (some pkt, dropped)
    | none => (some pkt, dropped)
  else (last_pkt, dropped)

/-- `TelemetryModel.append_csv_line`: strict column-count check, then
packet-loss tracking and bounded row append; the returned value is the
emitted error message or the accepted row. -/
def append_csv_line (st : GuiState) (line : String) :
    GuiState × Except String (List String) :=
  let parts := pySplitComma (pyStrip line)
  if parts.length ≠ REQUIRED_HEADERS.length then
    (st, .error "Bad columns")
  else
    let (last', dropped') :=
      guiTrack st.last_pkt st.dropped (parts.getD (INDEX "PACKET_COUNT") "")
    ({ rows := histAppend st.maxlen st.rows parts,
       last_pkt := last', dropped := dropped', maxlen := st.maxlen },
     .ok parts)

/-! ## CSV replay (`gs_gui2.py:CsvReplayer._loop`) -/

/-- `CsvReplayer._loop` on an already-parsed CSV file (list of rows):
if the first row is not exactly `REQUIRED_HEADERS` nothing is
replayed; otherwise every data row is emitted as a joined line. -/
def csvReplay (file : List (List String)) : List String :=
  match file with
  | [] => []
  | h :: rows => if h = REQUIRED_HEADERS then rows.map joinComma else []

/-! ## Concrete test vectors -/

/-- The end-to-end sample line of the repository (`schema.py` self-test). -/
def sampleLine : String :=
  "1000,13:14:02,123,F,ASCENT,452.3,27.5,95.3,7.4,0.12,-0.05,0.01,0.02,0.00,-0.01,0.23,0.01,0.04,15,13:14:01,455.1,1.2345,103.8234,8,CXON"

/-- The fields of `sampleLine`. -/
def sampleRow : List String :=
  ["1000", "13:14:02", "123", "F", "ASCENT", "452.3", "27.5", "95.3", "7.4",
   "0.12", "-0.05", "0.01", "0.02", "0.00", "-0.01", "0.23", "0.01", "0.04",
   "15", "13:14:01", "455.1", "1.2345", "103.8234", "8", "CXON"]

/-- The sample line with a negative PACKET_COUNT field. -/
def negSeqLine : String :=
  "1000,13:14:02,-5,F,ASCENT,452.3,27.5,95.3,7.4,0.12,-0.05,0.01,0.02,0.00,-0.01,0.23,0.01,0.04,15,13:14:01,455.1,1.2345,103.8234,8,CXON"

/-- The fields of `negSeqLine`. -/
def negSeqRow : List String :=
  ["1000", "13:14:02", "-5", "F", "ASCENT", "452.3", "27.5", "95.3", "7.4",
   "0.12", "-0.05", "0.01", "0.02", "0.00", "-0.01", "0.23", "0.01", "0.04",
   "15", "13:14:01", "455.1", "1.2345", "103.8234", "8", "CXON"]

/-- The sample line with one extra trailing field (26 fields). -/
def extLine : String := sampleLine ++ ",EXTRA"

/-- The sample fields with the mode surrounded by spaces. -/
def spacedModeRow : List String :=
  ["1000", "13:14:02", "123", " F ", "ASCENT", "452.3", "27.5", "95.3", "7.4",
   "0.12", "-0.05", "0.01", "0.02", "0.00", "-0.01", "0.23", "0.01", "0.04",
   "15", "13:14:01", "455.1", "1.2345", "103.8234", "8", "CXON"]

/-- Sample fields with a non-numeric PACKET_COUNT field. -/
def abcRow : List String :=
  ["1000", "13:14:02", "abc", "F", "ASCENT", "", "", "", "", "", "", "", "",
   "", "", "", "", "", "", "", "", "", "", "", ""]

end CanSat

namespace CanSat

/-! ## Helper lemmas -/

/-- Uppercasing a device name cannot remove a comma. -/
lemma comma_mem_pyUpper {d : String} (hc : ',' ∈ d.toList) :
    ',' ∈ (pyUpper d).toList := by
  unfold pyUpper
  rw [List.toList_asString]
  have := List.mem_map_of_mem Char.toUpper hc
  simpa using this

/-- `append_csv_line` on a line with the wrong column count reports the
error and returns the state unchanged. -/
lemma append_csv_line_badcols (st : GuiState) (line : String)
    (h : (pySplitComma (pyStrip line)).length ≠ REQUIRED_HEADERS.length) :
    append_csv_line st line = (st, .error "Bad columns") := by
  simp [append_csv_line, h]

/-! ## Claims -/

/-- C1 (counterexample): the code does not check the token count for
CAL: `format_cmd ["cal", "x"]` has an extra token yet succeeds and
produces a wire string, contradicting the claim that it must fail with
a CommandError. -/
theorem c1_counterexample : format_cmd ["cal", "x"] = .ok "CMD,1000,CAL" := rfl

/-- C1 (amended): for every token list whose first token
case-insensitively equals "CAL", `format_cmd` succeeds and returns
`CMD,<team_id>,CAL`, ignoring any additional tokens. -/
theorem c1_cal_ignores_extra_tokens (p0 : String) (rest : List String)
    (h : pyUpper p0 = "CAL") :
    format_cmd (p0 :: rest) = .ok ("CMD," ++ TEAM_ID ++ ",CAL") := by
  simp [format_cmd, h]

/-- C1 witness: the amended claim at the concrete input `["CAL"]`. -/
theorem c1_witness : format_cmd ["CAL"] = .ok ("CMD," ++ TEAM_ID ++ ",CAL") :=
  c1_cal_ignores_extra_tokens "CAL" [] rfl

/-- C3: the sequence tracker of `receiver_udp.main`: a first
observation sets the baseline with no loss; for every later
observation `last` becomes `seq` in all cases, and the loss counter
grows by `seq - last - 1` exactly when `seq > last + 1` and by nothing
otherwise (so in particular nothing when `seq ≤ last` and nothing for
the consecutive case `seq = last + 1`); and the three concrete runs
`[1,2,3]`, `[1,2,5]`, `[5,3]` end with loss 0, 2 and 0 (with
`last = 3` in the regression run). -/
theorem c3_sequence_tracker :
    (∀ lost seq, observe ⟨none, lost⟩ seq = ⟨some seq, lost⟩) ∧
    (∀ l lost seq, observe ⟨some l, lost⟩ seq =
      ⟨some seq, if seq > l + 1 then lost + (seq - l - 1) else lost⟩) ∧
    (∀ l lost seq, seq ≤ l →
      observe ⟨some l, lost⟩ seq = ⟨some seq, lost⟩) ∧
    (∀ l lost, observe ⟨some l, lost⟩ (l + 1) = ⟨some (l + 1), lost⟩) ∧
    observeAll ⟨none, 0⟩ [1, 2, 3] = ⟨some 3, 0⟩ ∧
    observeAll ⟨none, 0⟩ [1, 2, 5] = ⟨some 5, 2⟩ ∧
    observeAll ⟨none, 0⟩ [5, 3] = ⟨some 3, 0⟩ := by
  refine ⟨fun lost seq => rfl, fun l lost seq => ?_, fun l lost seq h => ?_,
    fun l lost => ?_, by decide, by decide, by decide⟩
  · by_cases h : seq > l + 1 <;> simp [observe, h]
  · have hn : ¬ seq > l + 1 := by omega
    simp [observe, hn]
  · have hn : ¬ l + 1 > l + 1 := by omega
    simp [observe, hn]

/-- C3 witness: the general step rule at `last = 100`, `seq = 102`
(gap 1), the regression rule at `last = 5`, `seq = 3`, and the
consecutive rule at `last = 100`, `seq = 101`. -/
theorem c3_witness :
    observe ⟨some 100, 0⟩ 102
      = ⟨some 102, if (102 : Int) > 100 + 1 then 0 + (102 - 100 - 1) else 0⟩ ∧
    observe ⟨some 5, 0⟩ 3 = ⟨some 3, 0⟩ ∧
    observe ⟨some 100, 0⟩ (100 + 1) = ⟨some (100 + 1), 0⟩ :=
  ⟨c3_sequence_tracker.2.1 100 0 102,
   c3_sequence_tracker.2.2.1 5 0 3 (by decide),
   c3_sequence_tracker.2.2.2.1 100 0⟩

/-- C7: the replayer emits no data row when the header line differs
from `REQUIRED_HEADERS` (or the file is empty), and emits exactly the
data rows when the header matches. -/
theorem c7_replay_header_check (h : List String) (rows : List (List String))
    (hne : h ≠ REQUIRED_HEADERS) :
    csvReplay (h :: rows) = [] ∧
    csvReplay [] = [] ∧
    csvReplay (REQUIRED_HEADERS :: rows) = rows.map joinComma := by
  refine ⟨?_, rfl, ?_⟩ <;> simp [csvReplay, hne]

/-- C7 witness: a one-column header is rejected with no rows replayed;
the exact header replays the data row. -/
theorem c7_witness :
    csvReplay [["X"], sampleRow] = [] ∧
    csvReplay [] = [] ∧
    csvReplay (REQUIRED_HEADERS :: [sampleRow]) = [sampleRow].map joinComma :=
  c7_replay_header_check ["X"] [sampleRow] (by decide)

/-- C8: every 3-token MEC command whose device token contains a comma
is rejected by `format_cmd` with an error; no wire string is
produced. -/
theorem c8_mec_comma_fails (p0 d s2 : String)
    (h : pyUpper p0 = "MEC") (hc : ',' ∈ d.toList) :
    ∃ msg, format_cmd [p0, d, s2] = .error msg := by
  have hdev := comma_mem_pyUpper hc
  by_cases hon : pyUpper s2 = "ON" ∨ pyUpper s2 = "OFF"
  · exact ⟨"DEVICE must not contain commas",
      by simp [format_cmd, h, hon, show (',') ∈ (pyUpper d).data from hdev]⟩
  · exact ⟨"Usage: MEC <DEVICE> <ON|OFF>", by simp [format_cmd, h, hon]⟩

/-- C8 witness: the spec's concrete example `["mec", "se,rvo", "on"]`
fails. -/
theorem c8_witness : ∃ msg, format_cmd ["mec", "se,rvo", "on"] = .error msg :=
  c8_mec_comma_fails "mec" "se,rvo" "on" (by decide) (by decide)

/-- One `histAppend` step keeps the buffer equal to the last `cap`
appended records. -/
lemma histAppend_drop {α : Type _} (cap : Nat) (hcap : 0 < cap)
    (rs : List α) (r : α) :
    histAppend cap (rs.drop (rs.length - cap)) r
      = (rs ++ [r]).drop (rs.length + 1 - cap) := by
  by_cases hn : rs.length < cap
  · have h0 : rs.length - cap = 0 := by omega
    have h1 : rs.length + 1 - cap = 0 := by omega
    rw [h0, h1, List.drop_zero, List.drop_zero]
    unfold histAppend
    rw [if_neg]
    simp
    omega
  · have hcn : cap ≤ rs.length := by omega
    have hlen : (rs.drop (rs.length - cap)).length = cap := by
      rw [List.length_drop]
      omega
    unfold histAppend pyLastSlice
    rw [if_pos (by simp [hlen]), if_neg (by omega)]
    have hlen2 : (rs.drop (rs.length - cap) ++ [r]).length = cap + 1 := by
      simp [hlen]
    rw [hlen2]
    have hd1 : cap + 1 - cap = 1 := by omega
    rw [hd1]
    rw [List.drop_append_of_le_length (by omega : 1 ≤ (rs.drop (rs.length - cap)).length),
      List.drop_append_of_le_length (by omega : rs.length + 1 - cap ≤ rs.length)]
    rw [List.drop_drop]
    congr 2
    omega

/-- C5: folding appends from the empty buffer with a positive capacity
leaves exactly the most recently appended records in insertion order
(the last `cap` of them), so the buffer never exceeds its capacity. -/
theorem c5_history_capacity (cap : Nat) (hcap : 0 < cap)
    (rs : List (List String)) :
    rs.foldl (histAppend cap) [] = rs.drop (rs.length - cap) ∧
    (rs.foldl (histAppend cap) []).length ≤ cap := by
  have main : rs.foldl (histAppend cap) [] = rs.drop (rs.length - cap) := by
    induction rs using List.reverseRecOn with
    | nil => simp
    | append_singleton rs r ih =>
      rw [List.foldl_append, List.foldl_cons, List.foldl_nil, ih,
        histAppend_drop cap hcap rs r]
      simp
  refine ⟨main, ?_⟩
  rw [main, List.length_drop]
  omega

/-- C5 witness: with capacity 3, appending 4 records leaves exactly
the last 3, oldest evicted first. -/
theorem c5_witness :
    [["1"], ["2"], ["3"], ["4"]].foldl (histAppend 3) []
      = [["1"], ["2"], ["3"], ["4"]].drop ([["1"], ["2"], ["3"], ["4"]].length - 3) ∧
    ([["1"], ["2"], ["3"], ["4"]].foldl (histAppend 3) []).length ≤ 3 :=
  c5_history_capacity 3 (by decide) [["1"], ["2"], ["3"], ["4"]]

/-- C4: a line that fails validation changes nothing: in the receiver
loop, a `parse_and_validate` error leaves the sequence state and the
persisted log untouched and returns the error; in the display model, a
failed column check leaves the stored rows, the last packet count and
the dropped counter untouched and reports the error. -/
theorem c4_accept_failure_no_mutation :
    (∀ (st : RecvState) (line : String) (e : ValErr),
      parse_and_validate line = .error e → recvAccept st line = (st, .error e)) ∧
    (∀ (st : GuiState) (line : String),
      (pySplitComma (pyStrip line)).length ≠ REQUIRED_HEADERS.length →
      append_csv_line st line = (st, .error "Bad columns")) := by
  constructor
  · intro st line e h
    unfold recvAccept
    rw [h]
  · exact append_csv_line_badcols

/-- All the checks of `validateFields` hold on a successful decode,
and the returned row is the verbatim prefix of the fields. -/
lemma validateFields_ok_elim (fields row : List String) (tx : Int)
    (h : validateFields fields = .ok (row, tx)) :
    has_required_field_count fields = true ∧
    pyStrip (fields.getD (INDEX "TEAM_ID") "") = TEAM_ID ∧
    is_valid_mode (pyStrip (fields.getD (INDEX "MODE") "")) = true ∧
    is_valid_state (pyStrip (fields.getD (INDEX "STATE") "")) = true ∧
    pyInt (fields.getD (INDEX "PACKET_COUNT") "") = some tx ∧
    row = fields.take REQUIRED_HEADERS.length := by
  unfold validateFields at h
  split_ifs at h with h1 h2 h3 h4
  cases hpi : pyInt (fields.getD (INDEX "PACKET_COUNT") "") with
  | none => rw [hpi] at h; simp at h
  | some v =>
    rw [hpi] at h
    simp only [Except.ok.injEq, Prod.mk.injEq] at h
    obtain ⟨hr, ht⟩ := h
    refine ⟨?_, ?_, ?_, ?_, congrArg some ht, hr.symm⟩
    · simpa using h1
    · simpa using h2
    · simpa using h3
    · simpa using h4

/-- When every check passes, `validateFields` succeeds with the
verbatim field prefix and the parsed count. -/
lemma validateFields_ok_intro (fields : List String) (tx : Int)
    (h1 : has_required_field_count fields = true)
    (h2 : pyStrip (fields.getD (INDEX "TEAM_ID") "") = TEAM_ID)
    (h3 : is_valid_mode (pyStrip (fields.getD (INDEX "MODE") "")) = true)
    (h4 : is_valid_state (pyStrip (fields.getD (INDEX "STATE") "")) = true)
    (h5 : pyInt (fields.getD (INDEX "PACKET_COUNT") "") = some tx) :
    validateFields fields = .ok (fields.take REQUIRED_HEADERS.length, tx) := by
  unfold validateFields
  rw [if_neg (not_not_intro h1), if_neg (not_not_intro h2),
    if_neg (not_not_intro h3), if_neg (not_not_intro h4), h5]

/-- `getD` inside the bound of a `take` reads the original list. -/
lemma getD_take_of_lt {α : Type _} (l : List α) (d : α) {i n : ℕ} (h : i < n) :
    (l.take n).getD i d = l.getD i d := by
  rw [List.getD_eq_getD_get?, List.getD_eq_getD_get?, List.get?_eq_getElem?,
    List.get?_eq_getElem?, List.getElem?_take_of_lt h]

/-- C4 witness: the short line "bad" fails validation and mutates
neither model at a concrete state. -/
theorem c4_witness :
    recvAccept ⟨⟨some 7, 4⟩, [sampleRow]⟩ "bad"
      = (⟨⟨some 7, 4⟩, [sampleRow]⟩, .error (.fieldCount 1)) ∧
    append_csv_line ⟨[sampleRow], some 7, 4, 20000⟩ "bad"
      = (⟨[sampleRow], some 7, 4, 20000⟩, .error "Bad columns") :=
  ⟨c4_accept_failure_no_mutation.1 ⟨⟨some 7, 4⟩, [sampleRow]⟩ "bad"
      (.fieldCount 1) rfl,
   c4_accept_failure_no_mutation.2 ⟨[sampleRow], some 7, 4, 20000⟩ "bad"
      (by decide)⟩

/-- C2 (counterexample): a line whose PACKET_COUNT field is "-5"
passes validation and decodes with sequence -5, contradicting the
claim that decode fails with `NonIntegerSequenceError` on any
packet-count field that is not a non-negative integer. -/
theorem c2_counterexample : parse_and_validate negSeqLine = .ok (negSeqRow, -5) :=
  rfl

/-- C2 (amended): for every field list passing the field-count, team,
mode and state checks, decode fails with `NonIntegerSequenceError`
exactly when the packet-count field does not parse as a Python integer
(optional sign and surrounding whitespace allowed); negative values
such as "-5" parse and are accepted. -/
theorem c2_seq_int_rule (fields : List String)
    (h1 : has_required_field_count fields = true)
    (h2 : pyStrip (fields.getD (INDEX "TEAM_ID") "") = TEAM_ID)
    (h3 : is_valid_mode (pyStrip (fields.getD (INDEX "MODE") "")) = true)
    (h4 : is_valid_state (pyStrip (fields.getD (INDEX "STATE") "")) = true) :
    (validateFields fields
        = .error (.nonIntSeq (fields.getD (INDEX "PACKET_COUNT") ""))
      ↔ pyInt (fields.getD (INDEX "PACKET_COUNT") "") = none) ∧
    parse_and_validate negSeqLine = .ok (negSeqRow, -5) := by
  constructor
  · unfold validateFields
    rw [if_neg (not_not_intro h1), if_neg (not_not_intro h2),
      if_neg (not_not_intro h3), if_neg (not_not_intro h4)]
    cases hpi : pyInt (fields.getD (INDEX "PACKET_COUNT") "") with
    | none => simp
    | some v => simp
  · rfl

/-- C2 witness: the amended rule at a concrete field list whose
packet-count field is "abc". -/
theorem c2_witness :
    (validateFields abcRow
        = .error (.nonIntSeq (abcRow.getD (INDEX "PACKET_COUNT") ""))
      ↔ pyInt (abcRow.getD (INDEX "PACKET_COUNT") "") = none) ∧
    parse_and_validate negSeqLine = .ok (negSeqRow, -5) :=
  c2_seq_int_rule abcRow (by decide) (by decide) (by decide) (by decide)

/-- C6: on every successful decode the returned row is exactly the
first `len(REQUIRED_HEADERS)` fields verbatim together with the parsed
sequence integer, and appending any extra trailing tokens neither
causes failure nor changes the result. -/
theorem c6_decode_first_n_verbatim (fields row : List String) (tx : Int)
    (h : validateFields fields = .ok (row, tx)) :
    row = fields.take REQUIRED_HEADERS.length ∧
    REQUIRED_HEADERS.length ≤ fields.length ∧
    pyInt (fields.getD (INDEX "PACKET_COUNT") "") = some tx ∧
    ∀ extra, validateFields (fields ++ extra) = .ok (row, tx) := by
  obtain ⟨h1, h2, h3, h4, h5, hrow⟩ := validateFields_ok_elim fields row tx h
  have hlen : REQUIRED_HEADERS.length ≤ fields.length := by
    simpa [has_required_field_count] using h1
  have h25 : REQUIRED_HEADERS.length = 25 := by decide
  refine ⟨hrow, hlen, h5, fun extra => ?_⟩
  have e0 : (fields ++ extra).getD (INDEX "TEAM_ID") ""
      = fields.getD (INDEX "TEAM_ID") "" :=
    List.getD_append _ _ _ _ (by rw [show INDEX "TEAM_ID" = 0 from by decide]; omega)
  have e2 : (fields ++ extra).getD (INDEX "PACKET_COUNT") ""
      = fields.getD (INDEX "PACKET_COUNT") "" :=
    List.getD_append _ _ _ _
      (by rw [show INDEX "PACKET_COUNT" = 2 from by decide]; omega)
  have e3 : (fields ++ extra).getD (INDEX "MODE") ""
      = fields.getD (INDEX "MODE") "" :=
    List.getD_append _ _ _ _ (by rw [show INDEX "MODE" = 3 from by decide]; omega)
  have e4 : (fields ++ extra).getD (INDEX "STATE") ""
      = fields.getD (INDEX "STATE") "" :=
    List.getD_append _ _ _ _ (by rw [show INDEX "STATE" = 4 from by decide]; omega)
  have hcount : has_required_field_count (fields ++ extra) = true := by
    simp only [has_required_field_count, List.length_append, decide_eq_true_eq,
      ge_iff_le]
    omega
  have hfin := validateFields_ok_intro (fields ++ extra) tx hcount
    (by rw [e0]; exact h2) (by rw [e3]; exact h3) (by rw [e4]; exact h4)
    (by rw [e2]; exact h5)
  rw [hfin, List.take_append_of_le_length hlen, ← hrow]

/-- C6 witness: the sample record decodes to its own 25 fields, and an
extra trailing token changes nothing. -/
theorem c6_witness :
    validateFields (sampleRow ++ ["EXTRA"]) = .ok (sampleRow, 123) :=
  (c6_decode_first_n_verbatim sampleRow sampleRow 123 rfl).2.2.2 ["EXTRA"]

/-- C9: the display model accepts only lines splitting into exactly
`len(REQUIRED_HEADERS)` fields, reporting an error and leaving rows,
last packet count and dropped counter unchanged otherwise; this is
stricter than the validator, which accepts the 26-field `extLine`
that the display model rejects. -/
theorem c9_gui_exact_columns :
    (∀ (st : GuiState) (line : String),
      (pySplitComma (pyStrip line)).length ≠ REQUIRED_HEADERS.length →
      append_csv_line st line = (st, .error "Bad columns")) ∧
    parse_and_validate extLine = .ok (sampleRow, 123) ∧
    (∀ st : GuiState, append_csv_line st extLine = (st, .error "Bad columns")) := by
  refine ⟨append_csv_line_badcols, rfl,
    fun st => append_csv_line_badcols st extLine (by decide)⟩

/-- C9 witness: the 26-field line at a concrete display state. -/
theorem c9_witness :
    append_csv_line ⟨[], none, 0, 20000⟩ extLine
      = (⟨[], none, 0, 20000⟩, .error "Bad columns") :=
  c9_gui_exact_columns.2.2 ⟨[], none, 0, 20000⟩

/-- C10: the validator compares team, mode and state fields with
surrounding whitespace stripped, while the returned record keeps the
original unstripped text: an otherwise-valid record whose mode field
is " F " decodes successfully and the record still carries " F ". -/
theorem c10_strip_compare_preserve (fields : List String) (tx : Int)
    (h1 : has_required_field_count fields = true)
    (h2 : pyStrip (fields.getD (INDEX "TEAM_ID") "") = TEAM_ID)
    (hmode : fields.getD (INDEX "MODE") "" = " F ")
    (h4 : is_valid_state (pyStrip (fields.getD (INDEX "STATE") "")) = true)
    (h5 : pyInt (fields.getD (INDEX "PACKET_COUNT") "") = some tx) :
    validateFields fields = .ok (fields.take REQUIRED_HEADERS.length, tx) ∧
    (fields.take REQUIRED_HEADERS.length).getD (INDEX "MODE") "" = " F " := by
  have h3 : is_valid_mode (pyStrip (fields.getD (INDEX "MODE") "")) = true := by
    rw [hmode]; decide
  refine ⟨validateFields_ok_intro fields tx h1 h2 h3 h4 h5, ?_⟩
  rw [getD_take_of_lt fields ""
    (show INDEX "MODE" < REQUIRED_HEADERS.length from by decide)]
  exact hmode

/-- C10 witness: the sample record with mode field " F ". -/
theorem c10_witness :
    validateFields spacedModeRow
      = .ok (spacedModeRow.take REQUIRED_HEADERS.length, 123) ∧
    (spacedModeRow.take REQUIRED_HEADERS.length).getD (INDEX "MODE") "" = " F " :=
  c10_strip_compare_preserve spacedModeRow 123 (by decide) (by decide)
    (by decide) (by decide) (by decide)

end CanSat
